import Mathlib

/-!
Verification development for the GraphRAG web platform backend
(`backend/app/services/graphrag_service.py`, `backend/app/services/file_service.py`,
`backend/app/api/indexing.py`, `backend/app/api/chat.py`).

The Python code is shallowly embedded: pure data manipulation becomes Lean
functions, I/O boundaries (file system, child process, external search engines)
become explicit environment records whose fields carry the outcomes the code
would observe, and Python exceptions become `Except` values or explicit error
branches.  Percentages in the source are floats that only ever hold the exact
integral checkpoint values 0, 5, 10, 20, 30, 60, 80, 90, 95, 100, so they are
embedded as `Nat`.  Timestamps (`datetime.utcnow()`) are abstract `Nat` ticks.
-/

namespace GraphRAG

/-! ## String helpers

Python `key.lower()`, `needle in hay` (substring test) and `line.strip()`,
used by `_monitor_indexing_process` and `_extract_sources_from_context`. -/

/-- Lowercase every character, modelling Python `str.lower()`. -/
def toLowerChars (l : List Char) : List Char := l.map Char.toLower

/-- Check whether `needle` is an initial segment of `hay`. -/
def startsWithChars : List Char → List Char → Bool
  | [], _ => true
  | _ :: _, [] => false
  | a :: as, b :: bs => a == b && startsWithChars as bs

/-- Check whether `needle` occurs contiguously anywhere in `hay`,
modelling Python `needle in hay` on strings. -/
def containsChars (hay needle : List Char) : Bool :=
  match hay with
  | [] => needle.isEmpty
  | _ :: t => startsWithChars needle hay || containsChars t needle

/-- Python `needle in hay.lower()` for an already-lowercase `needle`. -/
def strContainsLower (hay needle : String) : Bool :=
  containsChars (toLowerChars hay.data) needle.data

/-- Python `str.strip()`: drop leading and trailing whitespace. -/
def pyStrip (s : String) : String :=
  ⟨((s.data.dropWhile Char.isWhitespace).reverse.dropWhile Char.isWhitespace).reverse⟩

/-! ## Data model (`backend/app/models/file.py`, `backend/app/models/chat.py`) -/

/-- Model of `IndexingProgress` (Pydantic): the per-document progress record.
`estimated_remaining` is never set anywhere in the code and is omitted. -/
structure IndexingProgress where
  file_id : String
  status : String
  current_step : String
  progress_percentage : Nat
  error_message : Option String := none
  started_at : Option Nat := none
  completed_at : Option Nat := none
deriving Repr, DecidableEq

/-- Model of `FileMetadata` restricted to the fields the indexing and chat
endpoints read or write (`id`, `status`, `error_message`,
`original_filename`); the remaining fields are never touched by the
operations under verification. -/
structure FileMetadata where
  id : String
  status : String
  error_message : Option String := none
  original_filename : String := ""
deriving Repr, DecidableEq

/-- Model of `ChatMode` (`models/chat.py`): `LOCAL = "local"`, `GLOBAL = "global"`. -/
inductive ChatMode where
  | LOCAL
  | GLOBAL
deriving Repr, DecidableEq

/-! ## Progress persistence (`GraphRAGService._save_progress` /
`GraphRAGService.get_indexing_status`) -/

/-- One `_save_progress` write: the snapshot of the mutable progress record at
the moment it is serialized to `indexing_status_<file_id>.json`. -/
structure ProgressSnapshot where
  status : String
  current_step : String
  progress_percentage : Nat
  error_message : Option String
deriving Repr, DecidableEq

/-- Snapshot of the fields of the in-memory progress record that the claims
track across saves. -/
def snap (p : IndexingProgress) : ProgressSnapshot :=
  ⟨p.status, p.current_step, p.progress_percentage, p.error_message⟩

/-- Outcome of reading the stored progress file for one document:
`none` = the status file does not exist; `some (.error e)` = the file exists
but opening, JSON-decoding or model validation raised; `some (.ok p)` = the
record parsed into an `IndexingProgress`. -/
abbrev ReadOutcome := Option (Except String IndexingProgress)

/-- Model of `GraphRAGService.get_indexing_status`: the `try`/`except: pass`
around `json.load` turns any read or parse failure into `None`; a missing
file also yields `None`.  The function is total: no exception escapes. -/
def get_indexing_status (raw : ReadOutcome) : Option IndexingProgress :=
  match raw with
  | none => none
  | some (.error _) => none
  | some (.ok p) => some p

/-! ## Pipeline orchestrator (`GraphRAGService._run_indexing_pipeline`,
`_monitor_indexing_process`, `_update_progress`, `start_indexing`) -/

/-- Model of `GraphRAGService.start_indexing`: builds the initial progress
record (status `indexing`, step `preparing`, 0 %) and schedules the pipeline
as a detached task; the record is returned immediately. -/
def start_indexing (m : FileMetadata) (now : Nat) : IndexingProgress :=
  { file_id := m.id
    status := "indexing"
    current_step := "preparing"
    progress_percentage := 0
    started_at := some now }

/-- Model of `GraphRAGService._update_progress`: mutate step and percentage
(the subsequent `_save_progress` is recorded by the caller). -/
def _update_progress (p : IndexingProgress) (step : String) (pct : Nat) : IndexingProgress :=
  { p with current_step := step, progress_percentage := pct }

/-- Keyword classification of one stripped stdout line inside the monitor
loop of `_monitor_indexing_process` (lines 399–404): `entity`,
`relationship`, `community` checked in that order against the lowercased
line; no match keeps the current step. -/
def classifyStep (cur line_str : String) : String :=
  if strContainsLower line_str "entity" then "entity_extraction"
  else if strContainsLower line_str "relationship" then "relationship_extraction"
  else if strContainsLower line_str "community" then "community_detection"
  else cur

/-- The `step_progress` dict of `_monitor_indexing_process` (lines 377–382),
as a partial map from step name to checkpoint percentage. -/
def step_progress (s : String) : Option Nat :=
  if s = "chunking" then some 30
  else if s = "entity_extraction" then some 60
  else if s = "relationship_extraction" then some 80
  else if s = "community_detection" then some 90
  else none

/-- The read loop of `_monitor_indexing_process`: starting from
`current_step = "chunking"`, consume stdout lines until EOF or an empty
read (`if not line: break`), reclassify the step from each line, and emit
an `update_step` call whenever the current step is in `step_progress`.
Timeout iterations emit nothing and are not modelled.  Returns the emitted
`(step, percentage)` updates in order. -/
def monitorUpdates (cur : String) : List String → List (String × Nat)
  | [] => []
  | line :: rest =>
    if line = "" then []
    else
      let s := classifyStep cur (pyStrip line)
      (match step_progress s with
       | some p => [(s, p)]
       | none => []) ++ monitorUpdates s rest

/-- Observable environment of one `_run_indexing_pipeline` run: the result of
`extract_text_content` (`.error e` = the call raised with message `e`), the
child process's stdout lines, its exit code, its decoded stderr, and whether
`output/artifacts` exists after the process finished.  Config-file and
input-file writes are assumed to succeed (their exceptions would take the
same `except` branch as an `extract_text_content` failure). -/
structure PipelineEnv where
  extractText : Except String String
  lines : List String
  returncode : Int
  stderr : String
  artifactsExist : Bool

/-- Sequence of `_update_progress` calls (step, percentage) a pipeline run
issues before the `except`/success epilogue: `preparing 5`, `copying_file 10`
always; then, if text extraction succeeded, `chunking 20`, the monitor's
updates, and — when the child exited cleanly — `finalizing 95`. -/
def pipelineUpdateList (env : PipelineEnv) : List (String × Nat) :=
  [("preparing", 5), ("copying_file", 10)] ++
  match env.extractText with
  | .error _ => []
  | .ok _ =>
    [("chunking", 20)] ++ monitorUpdates "chunking" env.lines ++
    (if env.returncode ≠ 0 then [] else [("finalizing", 95)])

/-- Error message of a failing pipeline run, or `none` on success: text
extraction failure propagates its message; a non-zero exit code raises
`GraphRAG indexing failed: <stderr or "Unknown error">`
(`_monitor_indexing_process` lines 422–425); a clean exit with no
`output/artifacts` directory raises
`Indexing completed but no artifacts found` (line 305). -/
def pipelineErrorMsg (env : PipelineEnv) : Option String :=
  match env.extractText with
  | .error e => some e
  | .ok _ =>
    if env.returncode ≠ 0 then
      some ("GraphRAG indexing failed: " ++
        (if env.stderr = "" then "Unknown error" else env.stderr))
    else if env.artifactsExist then none
    else some "Indexing completed but no artifacts found"

/-- Apply a list of `_update_progress` calls to the in-memory record,
collecting the snapshot `_save_progress` writes after each one. -/
def applyUpdates (p : IndexingProgress) :
    List (String × Nat) → IndexingProgress × List ProgressSnapshot
  | [] => (p, [])
  | (s, pct) :: rest =>
    let p1 := _update_progress p s pct
    let r := applyUpdates p1 rest
    (r.1, snap p1 :: r.2)

/-- Result of one `_run_indexing_pipeline` run: every `_save_progress` write
in order, the final in-memory progress record, and the single
`update_file_status` call made on the document record as
`(status, error_message)`. -/
structure PipelineResult where
  saves : List ProgressSnapshot
  finalProgress : IndexingProgress
  fileStatusUpdate : String × Option String
deriving Repr, DecidableEq

/-- Model of `GraphRAGService._run_indexing_pipeline`: run the update
sequence, then either the success epilogue (progress status `completed`,
percentage 100, `completed_at` set, document updated to `completed`) or the
`except` branch (progress status `error` with the captured message, document
updated to `error` with the same message); the `finally` block saves the
final record.  The function is total: the Python `except Exception` means no
pipeline exception reaches the detached task's (nonexistent) caller. -/
def _run_indexing_pipeline (env : PipelineEnv) (p0 : IndexingProgress)
    (now : Nat) : PipelineResult :=
  let r := applyUpdates p0 (pipelineUpdateList env)
  match pipelineErrorMsg env with
  | some e =>
    let pe := { r.1 with status := "error", error_message := some e }
    { saves := r.2 ++ [snap pe]
      finalProgress := pe
      fileStatusUpdate := ("error", some e) }
  | none =>
    let pc := { r.1 with
                status := "completed"
                progress_percentage := 100
                completed_at := some now }
    { saves := r.2 ++ [snap pc]
      finalProgress := pc
      fileStatusUpdate := ("completed", none) }

/-! ## Indexing API endpoints (`backend/app/api/indexing.py`) -/

/-- State the `cancel`/`retry` endpoints can touch for one document id: its
registry record (`none` = unknown id) and its stored progress record. -/
structure ApiState where
  doc : Option FileMetadata
  progressRec : Option IndexingProgress
deriving Repr, DecidableEq

/-- True on `Except.ok`, used to state acceptance of an endpoint call. -/
def isOkE {ε α : Type} : Except ε α → Bool
  | .ok _ => true
  | .error _ => false

/-- Model of the `GET /api/indexing/status/{file_id}` handler body after the
404 check (`indexing.py` lines 44–81): return the stored progress record if
one exists, otherwise synthesize one from the document's status. -/
def get_indexing_status_api (m : FileMetadata) (stored : Option IndexingProgress)
    (now : Nat) : IndexingProgress :=
  match stored with
  | some p => p
  | none =>
    if m.status = "uploaded" then
      { file_id := m.id, status := "uploaded", current_step := "waiting"
        progress_percentage := 0 }
    else if m.status = "completed" then
      { file_id := m.id, status := "completed", current_step := "finished"
        progress_percentage := 100, completed_at := some now }
    else if m.status = "error" then
      { file_id := m.id, status := "error", current_step := "failed"
        progress_percentage := 0, error_message := m.error_message }
    else
      { file_id := m.id, status := "unknown", current_step := "unknown"
        progress_percentage := 0 }

/-- Model of `DELETE /api/indexing/cancel/{file_id}` (`indexing.py`
lines 146–188).  Returns the post-call state together with either an
`HTTPException` as `(status_code, detail)` or the success payload
`(message, file_id, status)`.  Rejections happen before any write. -/
def cancel_indexing (st : ApiState) :
    ApiState × Except (Nat × String) (String × String × String) :=
  match st.doc with
  | none => (st, .error (404, "File not found"))
  | some m =>
    if m.status ≠ "indexing" then
      (st, .error (400, "Cannot cancel indexing. File status: " ++ m.status))
    else
      let m1 := { m with status := "cancelled"
                         error_message := some "Indexing cancelled by user" }
      ({ st with doc := some m1 }, .ok ("Indexing cancelled", m.id, "cancelled"))

/-- Model of `POST /api/indexing/retry/{file_id}` (`indexing.py`
lines 191–242).  On acceptance the document is set to `indexing` with
`error_message` cleared and `start_indexing` is invoked; its background task
has not run yet when the handler returns, so the stored progress record is
unchanged either way.  Rejections happen before any write. -/
def retry_indexing (st : ApiState) (now : Nat) :
    ApiState × Except (Nat × String) (String × String × IndexingProgress) :=
  match st.doc with
  | none => (st, .error (404, "File not found"))
  | some m =>
    if ¬(m.status = "error" ∨ m.status = "cancelled") then
      (st, .error (400, "Cannot retry indexing. File status: " ++ m.status))
    else
      let m1 := { m with status := "indexing", error_message := none }
      let progress := start_indexing m now
      ({ st with doc := some m1 }, .ok ("Indexing restarted", m.id, progress))

/-! ## Query engines (`GraphRAGService._local_search`, `_global_search`,
`_extract_sources_from_context`, `query_graph`) and chat dispatch
(`backend/app/api/chat.py`) -/

/-- Which artifact files exist under `output_dir/<file_id>/output/artifacts`
for one document (an artifact may exist and hold an empty table; existence
is all the guard conditions inspect). -/
structure FileArtifacts where
  dirExists : Bool
  hasEntities : Bool
  hasRelationships : Bool
  hasTextUnits : Bool
  hasCommunityReports : Bool
deriving Repr, DecidableEq

/-- One source entry produced by `_extract_sources_from_context`: the dict
`{"type": key, "content": preview}`. -/
structure SourceEntry where
  typeName : String
  content : String
deriving Repr, DecidableEq

/-- Free-form `context_data` returned by the external search engines,
modelled as ordered key/value pairs with values already rendered by
`str(value)`. -/
abbrev ContextData := List (String × String)

/-- Model of `_extract_sources_from_context` (lines 598–612): keep the
entries whose lowercased key contains `source` or `chunk`; the content is
`str(value)[:200] + "..."` when `len(str(value)) > 200`, else the value. -/
def _extract_sources_from_context (ctx : ContextData) : List SourceEntry :=
  ctx.filterMap fun kv =>
    if strContainsLower kv.1 "source" || strContainsLower kv.1 "chunk" then
      some { typeName := kv.1
             content := if kv.2.length > 200 then ⟨kv.2.data.take 200⟩ ++ "..." else kv.2 }
    else none

/-- The `{response, sources}` part of a `_local_search`/`_global_search`
result dict. -/
structure SearchResult where
  response : String
  sources : List SourceEntry
deriving Repr, DecidableEq

/-- Environment for the query side: the artifact layout per document id, and
the outcomes of the opaque external search engines (`.error e` = the engine
call raised with message `e`; `.ok (response, context_data)` otherwise). -/
structure QueryEnv where
  artifacts : String → FileArtifacts
  localEngine : Except String (String × ContextData)
  globalEngine : Except String (String × ContextData)

/-- The document ids whose artifact directory exists and holds
`create_final_entities.parquet`, in input order — i.e. the dataframes the
`_local_search` loop (lines 475–497) appends to `all_entities`. -/
def localEntityDfs (env : QueryEnv) (file_ids : List String) : List String :=
  file_ids.filter fun f =>
    (env.artifacts f).dirExists && (env.artifacts f).hasEntities

/-- The document ids contributing to `all_communities` in the
`_global_search` loop (lines 542–558): artifact directory exists and holds
`create_final_community_reports.parquet`. -/
def globalCommunityDfs (env : QueryEnv) (file_ids : List String) : List String :=
  file_ids.filter fun f =>
    (env.artifacts f).dirExists && (env.artifacts f).hasCommunityReports

/-- Model of `GraphRAGService._local_search` (lines 467–533): if no document
contributed an entities dataframe (`if not all_entities`), return the fixed
no-indexed-data response with empty sources; otherwise delegate to the
external `LocalSearch` engine and extract sources from its context. -/
def _local_search (env : QueryEnv) (_query : String) (file_ids : List String) :
    Except String SearchResult :=
  if localEntityDfs env file_ids = [] then
    .ok { response := "No indexed data found for the specified files.", sources := [] }
  else
    match env.localEngine with
    | .error e => .error e
    | .ok r => .ok { response := r.1, sources := _extract_sources_from_context r.2 }

/-- Model of `GraphRAGService._global_search` (lines 535–596): if no document
contributed a community-reports dataframe (`if not all_communities`), return
the fixed no-community-data response with empty sources; otherwise delegate
to the external `GlobalSearch` engine. -/
def _global_search (env : QueryEnv) (_query : String) (file_ids : List String) :
    Except String SearchResult :=
  if globalCommunityDfs env file_ids = [] then
    .ok { response := "No community data found for global search.", sources := [] }
  else
    match env.globalEngine with
    | .error e => .error e
    | .ok r => .ok { response := r.1, sources := _extract_sources_from_context r.2 }

/-- Model of `GraphRAGQueryResult` restricted to the fields the chat layer
reads (`context_data` is carried inside `sources` extraction already). -/
structure GraphRAGQueryResult where
  response : String
  sources : List SourceEntry
  processing_time : Nat
  mode : ChatMode
deriving Repr, DecidableEq

/-- Model of `GraphRAGService.query_graph` (lines 102–139): dispatch on the
mode, wrap the elapsed time into the result, and re-wrap any exception as
`Error querying graph: <msg>`. -/
def query_graph (env : QueryEnv) (query : String) (mode : ChatMode)
    (file_ids : List String) (elapsed : Nat) : Except String GraphRAGQueryResult :=
  match (match mode with
         | .LOCAL => _local_search env query file_ids
         | .GLOBAL => _global_search env query file_ids) with
  | .error e => .error ("Error querying graph: " ++ e)
  | .ok r =>
    .ok { response := r.response, sources := r.sources
          processing_time := elapsed, mode := mode }

/-- Model of `ChatSource` restricted to the fields `chat_query` fills from a
GraphRAG source dict (which has only `type`/`content` keys, so `chunk_id`
and `relevance_score` come out `none`). -/
structure ChatSource where
  file_id : String
  filename : String
  chunk_id : Option String := none
deriving Repr, DecidableEq

/-- Model of `ChatResponse` restricted to the fields claim C10 tracks. -/
structure ChatResponseM where
  response : String
  mode : ChatMode
  sources : List ChatSource
  processing_time : Nat
deriving Repr, DecidableEq

/-- Environment of one chat request: the file registry and the query
environment. -/
structure ChatEnv where
  registry : String → Option FileMetadata
  qenv : QueryEnv

/-- The `valid_file_ids` filter of `chat_query`/`chat_stream`: the requested
ids whose registry record exists with status `completed`. -/
def validFileIds (registry : String → Option FileMetadata)
    (file_ids : List String) : List String :=
  file_ids.filter fun fid =>
    match registry fid with
    | some m => m.status == "completed"
    | none => false

/-- Lookup of `original_filename` used when converting sources; modelled as
part of the registry record being present. -/
def sourceFilename (registry : String → Option FileMetadata)
    (valid : List String) : String :=
  match valid with
  | [] => "unknown"
  | fid :: _ =>
    match registry fid with
    | some m => m.original_filename
    | none => "unknown"

/-- Model of `POST /api/chat/query` (`chat.py` lines 34–107): validate the
mode/file-id combination, filter to completed files, call `query_graph`
passing `valid_file_ids` in local mode but `[]` in global mode, convert each
returned source dict to a `ChatSource`, and wrap failures as HTTP 500. -/
def chat_query (cenv : ChatEnv) (message : String) (mode : ChatMode)
    (file_ids : List String) (elapsed : Nat) : Except (Nat × String) ChatResponseM :=
  if mode = .LOCAL ∧ file_ids = [] then
    .error (400, "Local mode requires at least one file_id")
  else
    let valid := validFileIds cenv.registry file_ids
    if mode = .LOCAL ∧ valid = [] then
      .error (400, "No valid completed files found for local search")
    else
      match query_graph cenv.qenv message mode
          (if mode = .LOCAL then valid else []) elapsed with
      | .error e => .error (500, "Chat query failed: " ++ e)
      | .ok r =>
        .ok { response := r.response
              mode := mode
              sources := r.sources.map fun _ =>
                { file_id := match valid with | [] => "unknown" | fid :: _ => fid
                  filename := sourceFilename cenv.registry valid }
              processing_time := r.processing_time }

/-! ## Concrete inputs used by counterexamples and witnesses -/

/-- Modelled from the spec: the preset checkpoint table asserted by the spec
(step 3 of the Pipeline Orchestrator) — preparing 5, copying_file 10,
chunking 20, entity_extraction 60, relationship_extraction 80,
community_detection 90, finalizing 95, completed 100.  Kept separate from
the source-derived `step_progress` so the two can be compared. -/
def specCheckpointPct (s : String) : Option Nat :=
  if s = "preparing" then some 5
  else if s = "copying_file" then some 10
  else if s = "chunking" then some 20
  else if s = "entity_extraction" then some 60
  else if s = "relationship_extraction" then some 80
  else if s = "community_detection" then some 90
  else if s = "finalizing" then some 95
  else if s = "completed" then some 100
  else none

/-- Every `(step, percentage)` pair the code can emit as an `_update_progress`
call: the three direct pipeline checkpoints, the monitor's four (note
`chunking` at 30 there), and `finalizing`. -/
def codeCheckpoints : List (String × Nat) :=
  [("preparing", 5), ("copying_file", 10), ("chunking", 20), ("chunking", 30),
   ("entity_extraction", 60), ("relationship_extraction", 80),
   ("community_detection", 90), ("finalizing", 95)]

/-- Pipeline environment whose child process logs a `relationship` line and
then an `entity` line, exactly the regression scenario of claim C1. -/
def c1Env : PipelineEnv :=
  { extractText := .ok "text"
    lines := ["relationship batch done", "entity resolution pass"]
    returncode := 0, stderr := "", artifactsExist := true }

/-- Document record used by the pipeline scenarios. -/
def c1Doc : FileMetadata := { id := "d1", status := "indexing" }

/-- Pipeline environment whose log lines classify to non-regressing steps. -/
def c1wEnv : PipelineEnv :=
  { extractText := .ok "text"
    lines := ["chunk info", "entity pass", "community merge"]
    returncode := 0, stderr := "", artifactsExist := true }

/-- Pipeline environment whose child process fails with exit code 1 and
stderr text `boom`. -/
def c3Env : PipelineEnv :=
  { extractText := .ok "text", lines := []
    returncode := 1, stderr := "boom", artifactsExist := true }

/-- Pipeline environment with one keyword-free log line, so the monitor
emits `chunking` at 30. -/
def c5Env : PipelineEnv :=
  { extractText := .ok "text", lines := ["workflow progress update"]
    returncode := 0, stderr := "", artifactsExist := true }

/-- Endpoint state for a document whose status is `completed`. -/
def c2St : ApiState :=
  { doc := some { id := "d2", status := "completed" }, progressRec := none }

/-- Query environment in which no document has any artifacts. -/
def noArtifactsQEnv : QueryEnv :=
  { artifacts := fun _ => ⟨false, false, false, false, false⟩
    localEngine := .ok ("engine response", [])
    globalEngine := .ok ("engine response", []) }

/-! ## Shared lemmas -/

/-- Progress updates never touch the record's status. -/
theorem applyUpdates_status (us : List (String × Nat)) :
    ∀ p : IndexingProgress, ∀ s ∈ (applyUpdates p us).2, s.status = p.status := by
  induction us with
  | nil => intro p s hs; simp [applyUpdates] at hs
  | cons u rest ih =>
    intro p s hs
    obtain ⟨a, b⟩ := u
    simp only [applyUpdates, List.mem_cons] at hs
    rcases hs with h | h
    · subst h; rfl
    · exact ih (_update_progress p a b) s h

/-- The saved snapshots carry exactly the percentages of the update calls. -/
theorem applyUpdates_pcts (us : List (String × Nat)) :
    ∀ p : IndexingProgress,
      ((applyUpdates p us).2).map ProgressSnapshot.progress_percentage =
        us.map Prod.snd := by
  induction us with
  | nil => intro p; rfl
  | cons u rest ih =>
    intro p
    obtain ⟨a, b⟩ := u
    simp only [applyUpdates, List.map_cons]
    exact congrArg _ (ih _)

/-- The in-memory record keeps its status across a run of updates. -/
theorem applyUpdates_final_status (us : List (String × Nat)) :
    ∀ p : IndexingProgress, ((applyUpdates p us).1).status = p.status := by
  induction us with
  | nil => intro p; rfl
  | cons u rest ih =>
    intro p
    obtain ⟨a, b⟩ := u
    simpa [applyUpdates] using ih (_update_progress p a b)

/-- The `step_progress` dict only contains the four monitor checkpoints. -/
theorem step_progress_pairs (s : String) (p : Nat) (h : step_progress s = some p) :
    (s, p) ∈ ([("chunking", 30), ("entity_extraction", 60),
      ("relationship_extraction", 80), ("community_detection", 90)] :
      List (String × Nat)) := by
  unfold step_progress at h
  split_ifs at h with h1 h2 h3 h4 <;> simp_all

/-- Every update the monitor emits is one of its four checkpoints. -/
theorem monitorUpdates_pairs (lines : List String) :
    ∀ cur : String, ∀ u ∈ monitorUpdates cur lines,
      u ∈ ([("chunking", 30), ("entity_extraction", 60),
        ("relationship_extraction", 80), ("community_detection", 90)] :
        List (String × Nat)) := by
  induction lines with
  | nil => intro cur u hu; simp [monitorUpdates] at hu
  | cons line rest ih =>
    intro cur u hu
    simp only [monitorUpdates] at hu
    split at hu
    · simp at hu
    · rw [List.mem_append] at hu
      rcases hu with h | h
      · split at h
        · next p hp =>
            simp only [List.mem_singleton] at h
            subst h
            exact step_progress_pairs _ _ hp
        · simp at h
      · exact ih _ u h

/-- Every percentage the monitor emits is 30, 60, 80 or 90. -/
theorem monitorPcts_mem (lines : List String) (cur : String) :
    ∀ x ∈ (monitorUpdates cur lines).map Prod.snd,
      x = 30 ∨ x = 60 ∨ x = 80 ∨ x = 90 := by
  intro x hx
  rw [List.mem_map] at hx
  obtain ⟨u, hu, hx⟩ := hx
  have := monitorUpdates_pairs lines cur u hu
  subst hx
  simp only [List.mem_cons, List.not_mem_nil, or_false] at this
  rcases this with h | h | h | h <;> simp [h]

/-- Shape of a run's save trace: the update snapshots followed by the final
save from the `finally` block. -/
theorem run_saves_eq (env : PipelineEnv) (p0 : IndexingProgress) (now : Nat) :
    (_run_indexing_pipeline env p0 now).saves =
      (applyUpdates p0 (pipelineUpdateList env)).2 ++
        [snap (_run_indexing_pipeline env p0 now).finalProgress] := by
  unfold _run_indexing_pipeline
  cases pipelineErrorMsg env <;> simp

/-- The final progress record ends `error`, or `completed` at exactly 100. -/
theorem run_final_cases (env : PipelineEnv) (p0 : IndexingProgress) (now : Nat) :
    (_run_indexing_pipeline env p0 now).finalProgress.status = "error" ∨
    ((_run_indexing_pipeline env p0 now).finalProgress.status = "completed" ∧
      (_run_indexing_pipeline env p0 now).finalProgress.progress_percentage = 100) := by
  unfold _run_indexing_pipeline
  cases pipelineErrorMsg env <;> simp

/-- Chain bound helper: prepending the fixed prelude checkpoints and
appending the optional `finalizing` checkpoint to a non-decreasing monitor
percentage sequence keeps the whole sequence non-decreasing. -/
theorem chain_le_aux (mp tl : List Nat)
    (hmp : ∀ x ∈ mp, x = 30 ∨ x = 60 ∨ x = 80 ∨ x = 90)
    (hmono : List.Chain' (· ≤ ·) mp)
    (htl : tl = [] ∨ tl = [95]) :
    List.Chain' (· ≤ ·) (5 :: 10 :: 20 :: (mp ++ tl)) := by
  refine List.chain'_cons.mpr ⟨by norm_num, ?_⟩
  refine List.chain'_cons.mpr ⟨by norm_num, ?_⟩
  rw [List.chain'_cons']
  constructor
  · intro y hy
    have hyl : y ∈ mp ++ tl := List.mem_of_mem_head? hy
    rw [List.mem_append] at hyl
    rcases hyl with h | h
    · rcases hmp y h with h | h | h | h <;> omega
    · rcases htl with rfl | rfl
      · simp at h
      · simp at h; omega
  · rw [List.chain'_append]
    refine ⟨hmono, ?_, ?_⟩
    · rcases htl with rfl | rfl
      · exact List.chain'_nil
      · exact List.chain'_singleton 95
    · intro x hx y hy
      have hxm : x ∈ mp := List.mem_of_mem_getLast? hx
      rcases htl with rfl | rfl
      · simp at hy
      · simp at hy
        subst hy
        rcases hmp x hxm with h | h | h | h <;> omega

/-- When the monitor's emitted percentages do not regress, the full update
sequence of a pipeline run is non-decreasing. -/
theorem chain_le_pipeline (env : PipelineEnv)
    (hmono : List.Chain' (· ≤ ·) ((monitorUpdates "chunking" env.lines).map Prod.snd)) :
    List.Chain' (· ≤ ·) ((pipelineUpdateList env).map Prod.snd) := by
  have hmem := monitorPcts_mem env.lines "chunking"
  unfold pipelineUpdateList
  cases hET : env.extractText with
  | error e =>
    simp only [hET, List.map_append, List.map_cons, List.map_nil, List.append_nil]
    exact List.chain'_cons.mpr ⟨by norm_num, List.chain'_singleton 10⟩
  | ok t =>
    simp only [hET, List.map_append, List.map_cons, List.map_nil]
    by_cases hrc : env.returncode ≠ 0
    · simpa [hrc] using chain_le_aux _ [] hmem hmono (Or.inl rfl)
    · simpa [hrc] using chain_le_aux _ [95] hmem hmono (Or.inr rfl)

/-! ## Claim theorems -/

/-- C8: for every document id, if the stored progress record is corrupt or
unreadable (the read outcome is an exception), `get_indexing_status` returns
`none` — the record is treated as absent; the function is total, so no
exception reaches the caller. -/
theorem c8_corrupt_record_treated_absent (raw : ReadOutcome) (e : String)
    (h : raw = some (.error e)) : get_indexing_status raw = none := by
  subst h; rfl

/-- C8 witness: a concrete corrupt record yields `none`. -/
theorem c8_witness :
    (some (Except.error "corrupt json") : ReadOutcome) = some (.error "corrupt json") ∧
      get_indexing_status (some (.error "corrupt json")) = none :=
  ⟨rfl, c8_corrupt_record_treated_absent _ "corrupt json" rfl⟩

/-- C4: with no stored progress record, the status endpoint synthesizes a
progress from the document's status: `uploaded` → 0 % waiting, `completed`
→ 100 % finished, `error` → 0 % carrying the document's error message, and
anything else → an `unknown` record at 0 %. -/
theorem c4_synthetic_progress (m : FileMetadata) (stored : Option IndexingProgress)
    (now : Nat) (h : stored = none) :
    (m.status = "uploaded" → get_indexing_status_api m stored now =
      { file_id := m.id, status := "uploaded", current_step := "waiting"
        progress_percentage := 0 }) ∧
    (m.status = "completed" → get_indexing_status_api m stored now =
      { file_id := m.id, status := "completed", current_step := "finished"
        progress_percentage := 100, completed_at := some now }) ∧
    (m.status = "error" → get_indexing_status_api m stored now =
      { file_id := m.id, status := "error", current_step := "failed"
        progress_percentage := 0, error_message := m.error_message }) ∧
    (m.status ≠ "uploaded" → m.status ≠ "completed" → m.status ≠ "error" →
      get_indexing_status_api m stored now =
        { file_id := m.id, status := "unknown", current_step := "unknown"
          progress_percentage := 0 }) := by
  subst h
  refine ⟨fun h1 => ?_, fun h1 => ?_, fun h1 => ?_, fun h1 h2 h3 => ?_⟩ <;>
    simp [get_indexing_status_api, h1, *]

/-- C4 witness: a concrete errored document with no stored record. -/
theorem c4_witness :
    get_indexing_status_api { id := "d4", status := "error", error_message := some "boom" }
        none 7 =
      { file_id := "d4", status := "error", current_step := "failed"
        progress_percentage := 0, error_message := some "boom" } :=
  (c4_synthetic_progress _ none 7 rfl).2.2.1 rfl

/-- C2: `cancel` is accepted exactly when the document status is `indexing`
and `retry` exactly when it is `error` or `cancelled`; a call from any other
status returns HTTP 400 with the precondition message and leaves both the
document record and the progress record unchanged. -/
theorem c2_cancel_retry_status_gate (st : ApiState) (now : Nat)
    (m : FileMetadata) (h : st.doc = some m) :
    (isOkE (cancel_indexing st).2 = (m.status == "indexing")) ∧
    (isOkE (retry_indexing st now).2 =
      (m.status == "error" || m.status == "cancelled")) ∧
    (m.status ≠ "indexing" → cancel_indexing st =
      (st, .error (400, "Cannot cancel indexing. File status: " ++ m.status))) ∧
    (¬(m.status = "error" ∨ m.status = "cancelled") → retry_indexing st now =
      (st, .error (400, "Cannot retry indexing. File status: " ++ m.status))) := by
  refine ⟨?_, ?_, fun hne => ?_, fun hne => ?_⟩
  · by_cases hc : m.status = "indexing" <;>
      simp [cancel_indexing, h, hc, isOkE]
  · by_cases he : m.status = "error" <;> by_cases hca : m.status = "cancelled" <;>
      simp [retry_indexing, h, he, hca, isOkE]
  · simp [cancel_indexing, h, hne]
  · simp [retry_indexing, h, hne, not_or.mp hne]

/-- C2 witness: a `completed` document — cancel and retry are both rejected
with 400 and the state is untouched. -/
theorem c2_witness :
    isOkE (cancel_indexing c2St).2 = false ∧
    isOkE (retry_indexing c2St 9).2 = false ∧
    cancel_indexing c2St =
      (c2St, .error (400, "Cannot cancel indexing. File status: completed")) ∧
    retry_indexing c2St 9 =
      (c2St, .error (400, "Cannot retry indexing. File status: completed")) := by
  have h := c2_cancel_retry_status_gate c2St 9 { id := "d2", status := "completed" } rfl
  exact ⟨h.1, h.2.1, h.2.2.1 (by decide), h.2.2.2 (by decide)⟩

/-- C3: whenever the background pipeline fails — text extraction raising, a
non-zero child exit code (whose stderr text becomes the message, or
`Unknown error` when stderr is empty), or a clean exit with the artifacts
directory missing — the error message is written onto both the progress
record (status `error`) and the document record (status `error`); the model
is a total function, so the exception is never re-raised to a caller. -/
theorem c3_pipeline_errors_recorded (env : PipelineEnv) (p0 : IndexingProgress)
    (now : Nat) :
    (∀ e, pipelineErrorMsg env = some e →
      (_run_indexing_pipeline env p0 now).finalProgress.status = "error" ∧
      (_run_indexing_pipeline env p0 now).finalProgress.error_message = some e ∧
      (_run_indexing_pipeline env p0 now).fileStatusUpdate = ("error", some e)) ∧
    (∀ t, env.extractText = .ok t → env.returncode ≠ 0 → env.stderr ≠ "" →
      pipelineErrorMsg env = some ("GraphRAG indexing failed: " ++ env.stderr)) ∧
    (∀ t, env.extractText = .ok t → env.returncode = 0 → env.artifactsExist = false →
      pipelineErrorMsg env = some "Indexing completed but no artifacts found") := by
  refine ⟨fun e he => ?_, fun t ht h1 h2 => ?_, fun t ht h1 h2 => ?_⟩
  · simp [_run_indexing_pipeline, he]
  · simp [pipelineErrorMsg, ht, h1, h2]
  · simp [pipelineErrorMsg, ht, h1, h2]

/-- C3 witness: exit code 1 with stderr `boom` puts
`GraphRAG indexing failed: boom` on both records. -/
theorem c3_witness :
    pipelineErrorMsg c3Env = some "GraphRAG indexing failed: boom" ∧
    (_run_indexing_pipeline c3Env (start_indexing c1Doc 0) 1).finalProgress.status = "error" ∧
    (_run_indexing_pipeline c3Env (start_indexing c1Doc 0) 1).finalProgress.error_message =
      some "GraphRAG indexing failed: boom" ∧
    (_run_indexing_pipeline c3Env (start_indexing c1Doc 0) 1).fileStatusUpdate =
      ("error", some "GraphRAG indexing failed: boom") :=
  ⟨rfl, (c3_pipeline_errors_recorded c3Env (start_indexing c1Doc 0) 1).1
    "GraphRAG indexing failed: boom" rfl⟩

/-- C6: when no listed document has an existing artifact directory holding an
entities artifact, `_local_search` returns the fixed no-indexed-data
response with empty sources; the branch returns before the external engine
is touched, so no exception can arise. -/
theorem c6_local_no_entities (env : QueryEnv) (query : String) (file_ids : List String)
    (h : ∀ f ∈ file_ids,
      ¬((env.artifacts f).dirExists = true ∧ (env.artifacts f).hasEntities = true)) :
    _local_search env query file_ids =
      .ok { response := "No indexed data found for the specified files.", sources := [] } := by
  have hnil : localEntityDfs env file_ids = [] := by
    rw [localEntityDfs, List.filter_eq_nil_iff]
    intro f hf
    simpa [Bool.and_eq_true] using h f hf
  simp [_local_search, hnil]

/-- C6 witness: two documents with no artifacts at all. -/
theorem c6_witness :
    (∀ f ∈ ["d1", "d2"],
      ¬((noArtifactsQEnv.artifacts f).dirExists = true ∧
        (noArtifactsQEnv.artifacts f).hasEntities = true)) ∧
    _local_search noArtifactsQEnv "who is X" ["d1", "d2"] =
      .ok { response := "No indexed data found for the specified files.", sources := [] } :=
  ⟨by decide, c6_local_no_entities noArtifactsQEnv "who is X" ["d1", "d2"] (by decide)⟩

/-- C7: when no listed document has an existing artifact directory holding a
community-reports artifact, `_global_search` returns the fixed
no-community-data response with empty sources. -/
theorem c7_global_no_communities (env : QueryEnv) (query : String) (file_ids : List String)
    (h : ∀ f ∈ file_ids,
      ¬((env.artifacts f).dirExists = true ∧
        (env.artifacts f).hasCommunityReports = true)) :
    _global_search env query file_ids =
      .ok { response := "No community data found for global search.", sources := [] } := by
  have hnil : globalCommunityDfs env file_ids = [] := by
    rw [globalCommunityDfs, List.filter_eq_nil_iff]
    intro f hf
    simpa [Bool.and_eq_true] using h f hf
  simp [_global_search, hnil]

/-- C7 witness: documents with no artifacts at all. -/
theorem c7_witness :
    (∀ f ∈ ["d1"],
      ¬((noArtifactsQEnv.artifacts f).dirExists = true ∧
        (noArtifactsQEnv.artifacts f).hasCommunityReports = true)) ∧
    _global_search noArtifactsQEnv "summarize" ["d1"] =
      .ok { response := "No community data found for global search.", sources := [] } :=
  ⟨by decide, c7_global_no_communities noArtifactsQEnv "summarize" ["d1"] (by decide)⟩

/-- C10: every chat query in global mode hands `query_graph` an empty
file-id list, so the global search scans no documents and the chat response
is always the fixed no-community-data text with an empty source list,
whatever completed documents the registry holds. -/
theorem c10_global_chat_fixed_response (cenv : ChatEnv) (message : String)
    (file_ids : List String) (elapsed : Nat) :
    chat_query cenv message .GLOBAL file_ids elapsed =
      .ok { response := "No community data found for global search."
            mode := .GLOBAL, sources := [], processing_time := elapsed } := rfl

/-- C9: every source entry extracted from a context dictionary comes from a
key whose lowercased form contains `source` or `chunk`, its content is the
value truncated to 200 characters plus an ellipsis when the value exceeds
200 characters and the whole value otherwise, and its length never exceeds
203. -/
theorem c9_source_entries_truncated (ctx : ContextData) (s : SourceEntry)
    (h : s ∈ _extract_sources_from_context ctx) :
    (∃ kv, kv ∈ ctx ∧ s.typeName = kv.1 ∧
      (strContainsLower kv.1 "source" = true ∨ strContainsLower kv.1 "chunk" = true) ∧
      (if kv.2.length > 200 then s.content = ⟨kv.2.data.take 200⟩ ++ "..."
       else s.content = kv.2)) ∧
    s.content.length ≤ 203 := by
  rw [_extract_sources_from_context, List.mem_filterMap] at h
  obtain ⟨kv, hkv, hf⟩ := h
  split at hf
  · next hcond =>
    rw [Option.some_inj] at hf
    subst hf
    rw [Bool.or_eq_true] at hcond
    constructor
    · exact ⟨kv, hkv, rfl, hcond, by split <;> rfl⟩
    · by_cases hl : kv.2.length > 200
      · simp only [hl, if_true, gt_iff_lt]
        have h1 : (String.mk (kv.2.data.take 200) ++ "...").length =
            (kv.2.data.take 200).length + 3 := by
          rw [String.length_append]; rfl
        rw [h1, List.length_take]
        omega
      · simp only [hl, if_false]
        unfold String.length at hl ⊢
        omega
  · exact absurd hf (by simp)

/-- C9 witness: a context with one short `source` key and one long `chunk`
key; the long value is truncated to exactly 203 characters. -/
theorem c9_witness :
    (⟨"source_docs", "hello"⟩ : SourceEntry) ∈
      _extract_sources_from_context [("source_docs", "hello"), ("other", "x")] ∧
    ((⟨"source_docs", "hello"⟩ : SourceEntry).typeName = "source_docs" ∧
      (⟨"source_docs", "hello"⟩ : SourceEntry).content.length ≤ 203) := by
  refine ⟨by decide, ?_, ?_⟩
  · rfl
  · exact (c9_source_entries_truncated
      [("source_docs", "hello"), ("other", "x")] ⟨"source_docs", "hello"⟩
      (by decide)).2

/-- C1 counterexample: with a `relationship` log line followed by an
`entity` log line, the pipeline saves percentage 80 and then 60 while the
status is still `indexing` — `progress_percentage` is not non-decreasing
across successive updates during indexing. -/
theorem c1_counterexample :
    ((_run_indexing_pipeline c1Env (start_indexing c1Doc 0) 1).saves.map
      (fun s => (s.status, s.progress_percentage)) =
      [("indexing", 5), ("indexing", 10), ("indexing", 20), ("indexing", 80),
       ("indexing", 60), ("indexing", 95), ("completed", 100)]) ∧
    (60 : Nat) < 80 := by
  exact ⟨rfl, by norm_num⟩

/-- C1 (amended): `progress_percentage` equals exactly 100 once the saved
status is `completed`; the saved percentages are non-decreasing across
successive saves while status is `indexing` provided the log-line monitor's
keyword-classified checkpoints do not regress (a log line matching an
earlier step's keyword after a later step's — e.g. `entity` after
`relationship` — makes the percentage drop). -/
theorem c1_progress_monotone_amended (env : PipelineEnv) (p0 : IndexingProgress)
    (now : Nat) (h0 : p0.status = "indexing")
    (hmono : List.Chain' (· ≤ ·) ((monitorUpdates "chunking" env.lines).map Prod.snd)) :
    List.Chain' (fun a b => a.progress_percentage ≤ b.progress_percentage)
      (((_run_indexing_pipeline env p0 now).saves).filter
        (fun s => s.status == "indexing")) ∧
    ∀ s ∈ (_run_indexing_pipeline env p0 now).saves,
      s.status = "completed" → s.progress_percentage = 100 := by
  have hsaves := run_saves_eq env p0 now
  have hfinal := run_final_cases env p0 now
  have hstat := applyUpdates_status (pipelineUpdateList env) p0
  constructor
  · rw [hsaves, List.filter_append]
    have h1 : List.filter (fun s => s.status == "indexing")
        (applyUpdates p0 (pipelineUpdateList env)).2 =
        (applyUpdates p0 (pipelineUpdateList env)).2 := by
      rw [List.filter_eq_self]
      intro s hs
      have := hstat s hs
      rw [this, h0]
      rfl
    have h2 : List.filter (fun s => s.status == "indexing")
        [snap (_run_indexing_pipeline env p0 now).finalProgress] = [] := by
      rcases hfinal with h | ⟨h, _⟩ <;> simp [snap, h]
    rw [h1, h2, List.append_nil]
    have hc := chain_le_pipeline env hmono
    rw [← applyUpdates_pcts (pipelineUpdateList env) p0] at hc
    exact (List.chain'_map ProgressSnapshot.progress_percentage).mp hc
  · intro s hs hsc
    rw [hsaves, List.mem_append] at hs
    rcases hs with h | h
    · have := hstat s h
      rw [this, h0] at hsc
      exact absurd hsc (by decide)
    · rw [List.mem_singleton] at h
      subst h
      rcases hfinal with h | ⟨h, hp⟩
      · rw [show (snap (_run_indexing_pipeline env p0 now).finalProgress).status =
            (_run_indexing_pipeline env p0 now).finalProgress.status from rfl, h] at hsc
        exact absurd hsc (by decide)
      · exact hp

/-- C1 witness: a run whose log lines classify to non-regressing steps has a
non-decreasing save trace and a final `completed` save at 100. -/
theorem c1_witness :
    (start_indexing c1Doc 0).status = "indexing" ∧
    List.Chain' (· ≤ ·) ((monitorUpdates "chunking" c1wEnv.lines).map Prod.snd) ∧
    (List.Chain' (fun a b => a.progress_percentage ≤ b.progress_percentage)
      (((_run_indexing_pipeline c1wEnv (start_indexing c1Doc 0) 1).saves).filter
        (fun s => s.status == "indexing")) ∧
    ∀ s ∈ (_run_indexing_pipeline c1wEnv (start_indexing c1Doc 0) 1).saves,
      s.status = "completed" → s.progress_percentage = 100) := by
  have hl : (monitorUpdates "chunking" c1wEnv.lines).map Prod.snd = [30, 60, 90] := rfl
  have hmono : List.Chain' (· ≤ ·)
      ((monitorUpdates "chunking" c1wEnv.lines).map Prod.snd) := by
    rw [hl]
    exact List.chain'_cons.mpr ⟨by norm_num,
      List.chain'_cons.mpr ⟨by norm_num, List.chain'_singleton 90⟩⟩
  exact ⟨rfl, hmono,
    c1_progress_monotone_amended c1wEnv (start_indexing c1Doc 0) 1 rfl hmono⟩

/-- C5 counterexample: a keyword-free log line makes the monitor push the
update `("chunking", 30)`, while the claimed preset table assigns `chunking`
the checkpoint 20 — so not every update uses the claimed preset
percentages. -/
theorem c5_counterexample :
    ("chunking", 30) ∈ pipelineUpdateList c5Env ∧
    specCheckpointPct "chunking" = some 20 ∧ (30 : Nat) ≠ 20 := by
  refine ⟨by decide, rfl, by norm_num⟩

/-- C5 (amended): every `(step, percentage)` update a pipeline run pushes is
one of the code's preset checkpoints — preparing 5, copying_file 10,
chunking 20 from the pipeline but 30 from the monitor, entity_extraction
60, relationship_extraction 80, community_detection 90, finalizing 95 —
and on success the final save is `completed` at exactly 100. -/
theorem c5_checkpoints_amended (env : PipelineEnv) (p0 : IndexingProgress)
    (now : Nat) :
    (∀ u ∈ pipelineUpdateList env, u ∈ codeCheckpoints) ∧
    (pipelineErrorMsg env = none →
      (_run_indexing_pipeline env p0 now).finalProgress.status = "completed" ∧
      (_run_indexing_pipeline env p0 now).finalProgress.progress_percentage = 100) := by
  constructor
  · intro u hu
    unfold pipelineUpdateList at hu
    rw [List.mem_append] at hu
    rcases hu with h | h
    · simp only [List.mem_cons, List.not_mem_nil, or_false] at h
      rcases h with rfl | rfl <;> decide
    · cases hET : env.extractText with
      | error e => rw [hET] at h; simp at h
      | ok t =>
        rw [hET] at h
        simp only [List.cons_append, List.nil_append, List.mem_cons,
          List.mem_append] at h
        rcases h with rfl | h | h
        · decide
        · have := monitorUpdates_pairs env.lines "chunking" u h
          simp only [List.mem_cons, List.not_mem_nil, or_false] at this
          rcases this with rfl | rfl | rfl | rfl <;> decide
        · by_cases hrc : env.returncode ≠ 0
          · rw [if_pos hrc] at h; simp at h
          · rw [if_neg hrc] at h
            simp only [List.mem_singleton] at h
            subst h; decide
  · intro hE
    unfold _run_indexing_pipeline
    simp [hE]

/-- C5 witness: a clean run pushes `("preparing", 5)`, a code checkpoint,
and ends `completed` at 100. -/
theorem c5_witness :
    ("preparing", 5) ∈ pipelineUpdateList c5Env ∧
    ("preparing", 5) ∈ codeCheckpoints ∧
    pipelineErrorMsg c5Env = none ∧
    (_run_indexing_pipeline c5Env (start_indexing c1Doc 0) 1).finalProgress.status =
      "completed" ∧
    (_run_indexing_pipeline c5Env (start_indexing c1Doc 0) 1).finalProgress.progress_percentage =
      100 :=
  ⟨by decide,
    (c5_checkpoints_amended c5Env (start_indexing c1Doc 0) 1).1 ("preparing", 5) (by decide),
    rfl,
    ((c5_checkpoints_amended c5Env (start_indexing c1Doc 0) 1).2 rfl).1,
    ((c5_checkpoints_amended c5Env (start_indexing c1Doc 0) 1).2 rfl).2⟩

end GraphRAG
